import Mathlib

/-!
Verification development for the AI_HabitCoach repository.

The Python sources are shallowly embedded below:
- `source_code/fusion.py` : emotion table, `map_face_emotion_score`, `fuse`.
- `source_code/text_analysis.py` : `analyze_text` (the sentiment pipeline is
  an external classifier; its `{label, score}` output is a parameter).
- `source_code/feedback_generator.py` : `generate_feedback` (the calls to
  `random.choice` / `random.random` are explicit choice parameters).
- `source_code/storage.py` : `save_entry` / `load_entries` (the SQLite store
  is a list of `Entry` records; commit failure is an explicit flag; the
  server clock is an explicit timestamp argument).

Python floats are modelled by exact rationals (ℚ); Python dicts whose keys
may be absent are modelled by structures with `Option` fields, with `.get`
defaults via `Option.getD`; string-keyed dicts of strings are association
lists.
-/

namespace HabitCoach

/-- `text_analysis` argument of `fuse`: a dict that may lack the
`valence` / `motivation_score` keys (fusion.py reads them with
`.get("valence", 0.5)` and `.get("motivation_score", 0.0)`). -/
structure TextDict where
  valence : Option ℚ
  motivation_score : Option ℚ
  deriving Repr, DecidableEq

/-- `face_analysis` argument of `fuse`: a dict that may lack the
`dominant_emotion` / `score` keys. -/
structure FaceDict where
  dominant_emotion : Option String
  score : Option ℚ
  deriving Repr, DecidableEq

/-- Python truthiness of the face dict: a dict is truthy iff non-empty
(we track exactly the keys `fuse` reads). -/
def FaceDict.truthy (d : FaceDict) : Bool :=
  d.dominant_emotion.isSome || d.score.isSome

/-- `components` sub-dict of the value returned by `fuse` (fusion.py 87-92). -/
structure Components where
  text_comp : ℚ
  face_comp : ℚ
  text_valence : ℚ
  motivation_score : ℚ
  deriving Repr, DecidableEq

/-- The dict returned by `fuse` (fusion.py 84-93). -/
structure FusionResult where
  mood_score : ℚ
  category : String
  components : Components
  deriving Repr, DecidableEq

/-- `EMOTION_TO_SCORE` (fusion.py 16-26), as the association list of the
Python dict literal. -/
def EMOTION_TO_SCORE : List (String × ℚ) :=
  [("angry", 0.1), ("disgust", 0.1), ("fear", 0.15), ("sad", 0.2),
   ("sadness", 0.2), ("surprise", 0.6), ("happy", 0.9), ("neutral", 0.5),
   ("no_face_detected", 0.5)]

/-- `EMOTION_TO_SCORE.get(dominant_emotion, 0.5)` (fusion.py 34). -/
def emotionBase (e : String) : ℚ :=
  (((EMOTION_TO_SCORE.find? (fun p => p.1 == e)).map Prod.snd).getD 0.5)

/-- `map_face_emotion_score` (fusion.py 28-36). -/
def map_face_emotion_score (dominant_emotion : String) (confidence : ℚ) : ℚ :=
  emotionBase dominant_emotion * confidence + 0.5 * (1 - confidence)

/-- The face branch of `fuse` (fusion.py 59-67): returns the pair
`(face_comp, face_conf)`. -/
def face_comp_conf (face_analysis : Option FaceDict) : ℚ × ℚ :=
  match face_analysis with
  | none => (0.5, 0)
  | some d =>
    if !d.truthy || d.dominant_emotion == some "no_face_detected" then
      (0.5, 0)
    else
      let dominant := d.dominant_emotion.getD "neutral"
      let conf := d.score.getD 0
      (map_face_emotion_score dominant conf, conf)

/-- The weight override of `fuse` (fusion.py 69-72). -/
def effective_weights (face_conf : ℚ) (weights : ℚ × ℚ) : ℚ × ℚ :=
  if face_conf < 0.1 then (0.9, 0.1) else weights

/-- The categorical bucket of `fuse` (fusion.py 77-82). -/
def categorize (mood : ℚ) : String :=
  if mood < 0.35 then "low" else if mood < 0.7 then "medium" else "high"

/-- `fuse` (fusion.py 38-93). The Python default `weights=(0.6, 0.4)` is the
constant `default_weights` below; callers here always pass weights
explicitly. -/
def fuse (text_analysis : TextDict) (face_analysis : Option FaceDict)
    (weights : ℚ × ℚ) : FusionResult :=
  let text_val := text_analysis.valence.getD 0.5
  let text_mot := text_analysis.motivation_score.getD 0
  let text_comp := 0.8 * text_val + 0.2 * text_mot
  let fc := face_comp_conf face_analysis
  let w := effective_weights fc.2 weights
  let mood := w.1 * text_comp + w.2 * fc.1
  { mood_score := mood
    category := categorize mood
    components :=
      { text_comp := text_comp
        face_comp := fc.1
        text_valence := text_val
        motivation_score := text_mot } }

/-- The default `weights=(0.6, 0.4)` of `fuse` (fusion.py 38). -/
def default_weights : ℚ × ℚ := (0.6, 0.4)

/-! ### text_analysis.py

The Hugging Face sentiment pipeline is an external classifier; its output
`{"label": ..., "score": ...}` enters `analyze_text` as the `label` / `score`
parameters.  The regex `re.search(rf"\b{kw}\b", text_lower)` is embedded as a
whole-word search over the character list. -/

/-- The dict returned by `analyze_text` (text_analysis.py 65-70). -/
structure TextResult where
  label : String
  score : ℚ
  valence : ℚ
  motivation_score : ℚ
  keywords : List String
  deriving Repr, DecidableEq

/-- `motivation_keywords` (text_analysis.py 52-55). -/
def motivation_keywords : List String :=
  ["goal", "plan", "exercise", "workout", "study",
   "read", "practice", "build", "apply", "learn", "finish"]

/-- A regex word character (`\w`): alphanumeric or underscore. -/
def isWordChar (c : Char) : Bool := c.isAlphanum || c == '_'

/-- `kw` occurs at position `i` of `s` with word boundaries (`\bkw\b`). -/
def matchesWordAt (s kw : List Char) (i : Nat) : Bool :=
  ((s.drop i).take kw.length == kw) &&
  (i == 0 || !isWordChar (s.getD (i - 1) ' ')) &&
  (!isWordChar (s.getD (i + kw.length) ' '))

/-- `re.search(rf"\b{kw}\b", s) is not None` (text_analysis.py 57). -/
def search_whole_word (s kw : String) : Bool :=
  (List.range (s.data.length + 1)).any (fun i => matchesWordAt s.data kw.data i)

/-- `analyze_text` (text_analysis.py 32-70), with the classifier result
`{label, score}` passed in as parameters. -/
def analyze_text (text : String) (label : String) (score : ℚ) : TextResult :=
  let text_lower := text.toLower
  let found := motivation_keywords.filter (fun kw => search_whole_word text_lower kw)
  let motivation_score :=
    min 1 (0.2 * (found.length : ℚ) + (if label == "POSITIVE" then 0.3 else 0))
  let valence := if label == "POSITIVE" then score else 1 - score
  { label := label, score := score, valence := valence,
    motivation_score := motivation_score, keywords := found }

/-! ### feedback_generator.py

`random.choice` over a list of length `n` is modelled by an explicit index
reduced mod `n`, and `random.random() < 0.4` by an explicit `personalize`
flag — the random source made explicit.  Python's `"...{micro_action}..."
.format(micro_action=m)` is modelled by storing each template as the
function `m ↦` formatted string.  The returned dict is an association list
so that key lookups (`.get`) keep their Python semantics. -/

/-- `MICRO_ACTIONS` (feedback_generator.py 32-38). -/
def MICRO_ACTIONS : List String :=
  ["a 10-minute walk",
   "a short breathing exercise",
   "writing one thing you’re grateful for",
   "a focused 20-minute session on a small task",
   "listening to a favorite song"]

/-- `TEMPLATES` (feedback_generator.py 16-29); each Python format string
`"... {micro_action} ..."` is the function of its `micro_action` slot. -/
def TEMPLATES : List (String × List (String → String)) :=
  [("low",
    [fun m => "I’m sorry you’re having a tough time. Small steps can help — try " ++ m ++ ".",
     fun m => "That sounds rough. Consider taking a brief break and doing " ++ m ++ " to reset a little."]),
   ("medium",
    [fun m => "You\x27re doing okay. Keep building momentum with " ++ m ++ ".",
     fun m => "Nice awareness — try " ++ m ++ " today to stay consistent."]),
   ("high",
    [fun m => "Great energy! Keep it up — maybe " ++ m ++ " as a small challenge.",
     fun m => "You seem in a good mood. Consider " ++ m ++ " to stretch your progress a little."])]

/-- Python `dict.get(k, dflt)` over an association-list dict of strings. -/
def dict_get (d : List (String × String)) (k : String) (dflt : String) : String :=
  ((d.find? (fun p => p.1 == k)).map Prod.snd).getD dflt

/-- Python `int()` applied to a rational: truncation toward zero. -/
def pyInt (q : ℚ) : Int := if 0 ≤ q then q.floor else q.ceil

/-- `generate_feedback` (feedback_generator.py 44-76).  `tchoice`/`mchoice`
index the `random.choice` calls and `personalize` is the outcome of
`random.random() < 0.4`; `_name` is the (unused) `name` parameter. -/
def generate_feedback (fusion_result : FusionResult) (text_analysis : TextResult)
    (face_analysis : Option FaceDict) (_name : Option String)
    (tchoice mchoice : Nat) (personalize : Bool) : List (String × String) :=
  let category := fusion_result.category
  let medium_templates :=
    ((TEMPLATES.find? (fun p => p.1 == "medium")).map Prod.snd).getD []
  let templates := ((TEMPLATES.find? (fun p => p.1 == category)).map Prod.snd).getD
    medium_templates
  let template := templates.getD (tchoice % templates.length) (fun m => m)
  let micro := MICRO_ACTIONS.getD (mchoice % MICRO_ACTIONS.length) ""
  let keywords := text_analysis.keywords
  let micro :=
    if !keywords.isEmpty && personalize then
      micro ++ " related to " ++ keywords.getD 0 ""
    else micro
  let feedback_text := template micro
  let rationale :=
    "(" ++ toString (pyInt (fusion_result.mood_score * 100)) ++
    "% mood score based on your words" ++
    (match face_analysis with
     | some d =>
       if d.truthy && !(d.dominant_emotion == some "no_face_detected") then
         " and detected face emotion \x27" ++ d.dominant_emotion.getD "None" ++ "\x27"
       else ""
     | none => "") ++ ")"
  [("feedback", feedback_text), ("rationale", rationale)]

/-! ### storage.py

The SQLite table `entries` is a list of `Entry` records; the JSON
serialization of the `text_result` / `face_result` dicts is modelled by
storing the structured values themselves.  `datetime.now()` is the explicit
`now` argument, and whether `session.add`/`session.commit` raises is the
explicit `commit_fails` flag (the store itself is external to the repo). -/

/-- A row of the `entries` table (storage.py 68-80). -/
structure Entry where
  timestamp : Nat
  text : String
  text_emotion : TextResult
  face_emotion : Option FaceDict
  mood_score : ℚ
  feedback : String
  deriving Repr, DecidableEq

/-- `save_entry` (storage.py 97-123): builds the row — reading the feedback
message as `feedback_obj.get("message", "")` — and commits it; on failure
the `except` branch rolls back, leaving the table unchanged, and the
function still returns normally. -/
def save_entry (db : List Entry) (now : Nat) (commit_fails : Bool) (text : String)
    (feedback_obj : List (String × String)) (fusion_result : FusionResult)
    (text_result : TextResult) (face_result : Option FaceDict) : List Entry :=
  let attempt : Except String (List Entry) :=
    if commit_fails then Except.error "db error"
    else
      let entry : Entry :=
        { timestamp := now, text := text, text_emotion := text_result,
          face_emotion := face_result, mood_score := fusion_result.mood_score,
          feedback := dict_get feedback_obj "message" "" }
      Except.ok (db ++ [entry])
  match attempt with
  | Except.ok db2 => db2
  | Except.error _ => db

/-- `load_entries` (storage.py 130-138): all rows ordered by timestamp,
most recent first (`ORDER BY timestamp DESC`). -/
def load_entries (db : List Entry) : List Entry :=
  db.insertionSort (fun a b => b.timestamp ≤ a.timestamp)

/-! ### Shared lemmas -/

/-- Every value of the `EMOTION_TO_SCORE` lookup (default included) lies in
`[0.1, 0.9]`. -/
lemma emotionBase_bounds (e : String) :
    (0.1 : ℚ) ≤ emotionBase e ∧ emotionBase e ≤ 0.9 := by
  unfold emotionBase
  cases h : EMOTION_TO_SCORE.find? (fun p => p.1 == e) with
  | none => norm_num
  | some p =>
    have hm := List.mem_of_find?_eq_some h
    simp only [Option.map_some', Option.getD_some]
    fin_cases hm <;> norm_num

/-- The confidence blend keeps the face score in `[0,1]` for any emotion
label, as long as the confidence is in `[0,1]`. -/
lemma map_face_emotion_score_bounds (e : String) (c : ℚ) (h0 : 0 ≤ c) (h1 : c ≤ 1) :
    0 ≤ map_face_emotion_score e c ∧ map_face_emotion_score e c ≤ 1 := by
  have hb := emotionBase_bounds e
  unfold map_face_emotion_score
  constructor <;> nlinarith [hb.1, hb.2]

/-- The face confidence that `fuse` computes equals, in the live branch,
the `score` value of the face dict (and `0` in the other branches). -/
lemma face_comp_bounds (f : Option FaceDict)
    (h0 : 0 ≤ (face_comp_conf f).2) (h1 : (face_comp_conf f).2 ≤ 1) :
    0 ≤ (face_comp_conf f).1 ∧ (face_comp_conf f).1 ≤ 1 := by
  rcases f with _ | d
  · norm_num [face_comp_conf]
  · by_cases hb : (!d.truthy || d.dominant_emotion == some "no_face_detected") = true
    · norm_num [face_comp_conf, hb]
    · simp only [face_comp_conf, hb, if_false, Bool.not_eq_true] at h0 h1 ⊢
      exact map_face_emotion_score_bounds _ _ h0 h1

/-- The effective weights are nonnegative with sum at most `1` whenever the
caller-supplied pair is. -/
lemma effective_weights_bounds (c wt wf : ℚ)
    (h1 : 0 ≤ wt) (h2 : 0 ≤ wf) (h3 : wt + wf ≤ 1) :
    0 ≤ (effective_weights c (wt, wf)).1 ∧ 0 ≤ (effective_weights c (wt, wf)).2 ∧
    (effective_weights c (wt, wf)).1 + (effective_weights c (wt, wf)).2 ≤ 1 := by
  unfold effective_weights
  split <;> norm_num [h1, h2, h3]

/-- A convex-type combination of two `[0,1]` scores with nonnegative weights
summing to at most one stays in `[0,1]`. -/
lemma mood_bounds (tc fc w1 w2 : ℚ)
    (htc0 : 0 ≤ tc) (htc1 : tc ≤ 1) (hfc0 : 0 ≤ fc) (hfc1 : fc ≤ 1)
    (hw1 : 0 ≤ w1) (hw2 : 0 ≤ w2) (hw3 : w1 + w2 ≤ 1) :
    0 ≤ w1 * tc + w2 * fc ∧ w1 * tc + w2 * fc ≤ 1 := by
  constructor <;> nlinarith

/-- The categorical bucket is always one of the three labels. -/
lemma categorize_cases (m : ℚ) :
    categorize m = "low" ∨ categorize m = "medium" ∨ categorize m = "high" := by
  unfold categorize
  split_ifs <;> simp

/-! ### Claims -/

/-- C1 (counterexample): with caller weights `(1, 1)` — each in `[0,1]` —
valence `1`, motivation `1` and a happy face at confidence `1` (all in
`[0,1]`), `fuse` returns `mood_score = 1.9`, which is not ≤ 1: the claim
that the mood score always lies in `[0,1]` under per-weight bounds alone is
false. -/
theorem C1_counterexample :
    (fuse ⟨some 1, some 1⟩ (some ⟨some "happy", some 1⟩) (1, 1)).mood_score = 1.9 ∧
    ¬ (fuse ⟨some 1, some 1⟩ (some ⟨some "happy", some 1⟩) (1, 1)).mood_score ≤ 1 := by
  constructor <;>
    · simp [fuse, face_comp_conf, effective_weights, map_face_emotion_score, emotionBase,
        EMOTION_TO_SCORE, FaceDict.truthy, List.find?]
      norm_num

/-- C1 (amended): for every text signal with valence and motivation in
`[0,1]`, every optional face signal whose effective confidence is in
`[0,1]`, and every caller weight pair with both weights in `[0,1]` and sum
at most 1, the mood score returned by `fuse` equals
`weightText × textComponent + weightFace × faceComponent` with the
effective weights after the low-confidence override, and the mood score and
both components lie in `[0,1]`. -/
theorem C1_amended_in_unit_interval (v m : ℚ) (f : Option FaceDict) (wt wf : ℚ)
    (hv0 : 0 ≤ v) (hv1 : v ≤ 1) (hm0 : 0 ≤ m) (hm1 : m ≤ 1)
    (hc0 : 0 ≤ (face_comp_conf f).2) (hc1 : (face_comp_conf f).2 ≤ 1)
    (hw0 : 0 ≤ wt) (hw1 : wt ≤ 1) (hw2 : 0 ≤ wf) (hw3 : wf ≤ 1)
    (hws : wt + wf ≤ 1) :
    (fuse ⟨some v, some m⟩ f (wt, wf)).mood_score =
      (effective_weights (face_comp_conf f).2 (wt, wf)).1 *
        (fuse ⟨some v, some m⟩ f (wt, wf)).components.text_comp +
      (effective_weights (face_comp_conf f).2 (wt, wf)).2 *
        (fuse ⟨some v, some m⟩ f (wt, wf)).components.face_comp ∧
    0 ≤ (fuse ⟨some v, some m⟩ f (wt, wf)).components.text_comp ∧
    (fuse ⟨some v, some m⟩ f (wt, wf)).components.text_comp ≤ 1 ∧
    0 ≤ (fuse ⟨some v, some m⟩ f (wt, wf)).components.face_comp ∧
    (fuse ⟨some v, some m⟩ f (wt, wf)).components.face_comp ≤ 1 ∧
    0 ≤ (fuse ⟨some v, some m⟩ f (wt, wf)).mood_score ∧
    (fuse ⟨some v, some m⟩ f (wt, wf)).mood_score ≤ 1 := by
  have htc0 : (0 : ℚ) ≤ 0.8 * v + 0.2 * m := by nlinarith
  have htc1 : (0.8 : ℚ) * v + 0.2 * m ≤ 1 := by nlinarith
  have hfc := face_comp_bounds f hc0 hc1
  have hew := effective_weights_bounds (face_comp_conf f).2 wt wf hw0 hw2 hws
  have hmood := mood_bounds (0.8 * v + 0.2 * m) (face_comp_conf f).1
    (effective_weights (face_comp_conf f).2 (wt, wf)).1
    (effective_weights (face_comp_conf f).2 (wt, wf)).2
    htc0 htc1 hfc.1 hfc.2 hew.1 hew.2.1 hew.2.2
  refine ⟨rfl, ?_, ?_, ?_, ?_, ?_, ?_⟩
  · simpa [fuse] using htc0
  · simpa [fuse] using htc1
  · simpa [fuse] using hfc.1
  · simpa [fuse] using hfc.2
  · simpa [fuse] using hmood.1
  · simpa [fuse] using hmood.2

/-- C1 (witness): the amended theorem applied at scenario-A inputs. -/
theorem C1_amended_in_unit_interval_witness :
    (fuse ⟨some 0.8, some 0.3⟩ (some ⟨some "happy", some 0.8⟩) (0.6, 0.4)).mood_score =
      (effective_weights (face_comp_conf (some ⟨some "happy", some 0.8⟩)).2 (0.6, 0.4)).1 *
        (fuse ⟨some 0.8, some 0.3⟩ (some ⟨some "happy", some 0.8⟩) (0.6, 0.4)).components.text_comp +
      (effective_weights (face_comp_conf (some ⟨some "happy", some 0.8⟩)).2 (0.6, 0.4)).2 *
        (fuse ⟨some 0.8, some 0.3⟩ (some ⟨some "happy", some 0.8⟩) (0.6, 0.4)).components.face_comp ∧
    0 ≤ (fuse ⟨some 0.8, some 0.3⟩ (some ⟨some "happy", some 0.8⟩) (0.6, 0.4)).components.text_comp ∧
    (fuse ⟨some 0.8, some 0.3⟩ (some ⟨some "happy", some 0.8⟩) (0.6, 0.4)).components.text_comp ≤ 1 ∧
    0 ≤ (fuse ⟨some 0.8, some 0.3⟩ (some ⟨some "happy", some 0.8⟩) (0.6, 0.4)).components.face_comp ∧
    (fuse ⟨some 0.8, some 0.3⟩ (some ⟨some "happy", some 0.8⟩) (0.6, 0.4)).components.face_comp ≤ 1 ∧
    0 ≤ (fuse ⟨some 0.8, some 0.3⟩ (some ⟨some "happy", some 0.8⟩) (0.6, 0.4)).mood_score ∧
    (fuse ⟨some 0.8, some 0.3⟩ (some ⟨some "happy", some 0.8⟩) (0.6, 0.4)).mood_score ≤ 1 :=
  C1_amended_in_unit_interval 0.8 0.3 (some ⟨some "happy", some 0.8⟩) 0.6 0.4
    (by norm_num) (by norm_num) (by norm_num) (by norm_num)
    (by simp [face_comp_conf, FaceDict.truthy] <;> norm_num)
    (by simp [face_comp_conf, FaceDict.truthy] <;> norm_num)
    (by norm_num) (by norm_num) (by norm_num) (by norm_num) (by norm_num)

/-- C3: the category returned by `fuse` is exactly the fixed step function
of its mood score (`< 0.35` low, `< 0.70` medium, else high), always one of
the three labels; the two boundary facts are exhibited on inputs whose mood
score is exactly `0.35` (category medium) and exactly `0.70` (category
high). -/
theorem C3_category_step_function (t : TextDict) (f : Option FaceDict) (w : ℚ × ℚ) :
    ((fuse t f w).category =
      if (fuse t f w).mood_score < 0.35 then "low"
      else if (fuse t f w).mood_score < 0.7 then "medium" else "high") ∧
    ((fuse t f w).category = "low" ∨ (fuse t f w).category = "medium" ∨
      (fuse t f w).category = "high") ∧
    (fuse ⟨some 0.35, some 0.35⟩ (some ⟨some "happy", some 0.5⟩) (1, 0)).mood_score = 0.35 ∧
    (fuse ⟨some 0.35, some 0.35⟩ (some ⟨some "happy", some 0.5⟩) (1, 0)).category = "medium" ∧
    (fuse ⟨some 0.7, some 0.7⟩ (some ⟨some "happy", some 0.5⟩) (1, 0)).mood_score = 0.7 ∧
    (fuse ⟨some 0.7, some 0.7⟩ (some ⟨some "happy", some 0.5⟩) (1, 0)).category = "high" := by
  refine ⟨rfl, categorize_cases _, ?_, ?_, ?_, ?_⟩ <;>
    · simp [fuse, face_comp_conf, effective_weights, map_face_emotion_score, emotionBase,
        EMOTION_TO_SCORE, FaceDict.truthy, categorize, List.find?]
      norm_num

/-- C4: whenever the effective face confidence is below `0.1` the mood
score is computed with the forced weights `(0.9, 0.1)` whatever the caller
supplied; when it is at least `0.1` the caller-supplied weights are used
unchanged. -/
theorem C4_weight_override (t : TextDict) (f : Option FaceDict) (w : ℚ × ℚ) :
    ((face_comp_conf f).2 < 0.1 →
      (fuse t f w).mood_score =
        0.9 * (fuse t f w).components.text_comp +
        0.1 * (fuse t f w).components.face_comp) ∧
    (0.1 ≤ (face_comp_conf f).2 →
      (fuse t f w).mood_score =
        w.1 * (fuse t f w).components.text_comp +
        w.2 * (fuse t f w).components.face_comp) := by
  constructor <;> intro h
  · simp [fuse, effective_weights, h]
  · simp [fuse, effective_weights, not_lt.mpr h]

/-- C4 (witness): with no face signal the confidence is `0 < 0.1` and the
override applies; with a happy face at confidence `0.8 ≥ 0.1` the caller
weights `(0.2, 0.8)` are used unchanged. -/
theorem C4_weight_override_witness :
    ((fuse ⟨some 0.5, some 0⟩ none (0.2, 0.8)).mood_score =
      0.9 * (fuse ⟨some 0.5, some 0⟩ none (0.2, 0.8)).components.text_comp +
      0.1 * (fuse ⟨some 0.5, some 0⟩ none (0.2, 0.8)).components.face_comp) ∧
    ((fuse ⟨some 0.5, some 0⟩ (some ⟨some "happy", some 0.8⟩) (0.2, 0.8)).mood_score =
      (0.2 : ℚ) * (fuse ⟨some 0.5, some 0⟩ (some ⟨some "happy", some 0.8⟩) (0.2, 0.8)).components.text_comp +
      (0.8 : ℚ) * (fuse ⟨some 0.5, some 0⟩ (some ⟨some "happy", some 0.8⟩) (0.2, 0.8)).components.face_comp) :=
  ⟨(C4_weight_override ⟨some 0.5, some 0⟩ none (0.2, 0.8)).1
      (by norm_num [face_comp_conf]),
   (C4_weight_override ⟨some 0.5, some 0⟩ (some ⟨some "happy", some 0.8⟩) (0.2, 0.8)).2
      (by simp [face_comp_conf, FaceDict.truthy] <;> norm_num)⟩

/-- C5: with no face signal, or a face signal carrying the
`"no_face_detected"` sentinel, `fuse` uses face component `0.5` and face
confidence `0`; otherwise the face component is
`baseScore × confidence + 0.5 × (1 − confidence)` with `baseScore` from the
fixed emotion table (`0.5` for labels outside the table). -/
theorem C5_face_component (t : TextDict) (w : ℚ × ℚ) (e : String) (c : ℚ) :
    ((fuse t none w).components.face_comp = 0.5 ∧ (face_comp_conf none).2 = 0) ∧
    ((fuse t (some ⟨some "no_face_detected", some c⟩) w).components.face_comp = 0.5 ∧
      (face_comp_conf (some ⟨some "no_face_detected", some c⟩)).2 = 0) ∧
    (e ≠ "no_face_detected" →
      (fuse t (some ⟨some e, some c⟩) w).components.face_comp =
        emotionBase e * c + 0.5 * (1 - c) ∧
      (face_comp_conf (some ⟨some e, some c⟩)).2 = c) ∧
    (emotionBase "happy" = 0.9 ∧ emotionBase "neutral" = 0.5 ∧
      emotionBase "surprise" = 0.6 ∧ emotionBase "sad" = 0.2 ∧
      emotionBase "sadness" = 0.2 ∧ emotionBase "fear" = 0.15 ∧
      emotionBase "angry" = 0.1 ∧ emotionBase "disgust" = 0.1) ∧
    (e ∉ ["angry", "disgust", "fear", "sad", "sadness", "surprise", "happy",
        "neutral", "no_face_detected"] → emotionBase e = 0.5) := by
  refine ⟨⟨rfl, rfl⟩, ?_, ?_, ⟨rfl, rfl, rfl, rfl, rfl, rfl, rfl, rfl⟩, ?_⟩
  · constructor <;> simp [fuse, face_comp_conf, FaceDict.truthy]
  · intro h
    constructor <;>
      simp [fuse, face_comp_conf, FaceDict.truthy, map_face_emotion_score, beq_iff_eq, h]
  · intro h
    simp only [List.mem_cons, List.not_mem_nil, or_false, not_or] at h
    obtain ⟨h1, h2, h3, h4, h5, h6, h7, h8, h9⟩ := h
    have e1 : ("angry" == e) = false := beq_eq_false_iff_ne.mpr (Ne.symm h1)
    have e2 : ("disgust" == e) = false := beq_eq_false_iff_ne.mpr (Ne.symm h2)
    have e3 : ("fear" == e) = false := beq_eq_false_iff_ne.mpr (Ne.symm h3)
    have e4 : ("sad" == e) = false := beq_eq_false_iff_ne.mpr (Ne.symm h4)
    have e5 : ("sadness" == e) = false := beq_eq_false_iff_ne.mpr (Ne.symm h5)
    have e6 : ("surprise" == e) = false := beq_eq_false_iff_ne.mpr (Ne.symm h6)
    have e7 : ("happy" == e) = false := beq_eq_false_iff_ne.mpr (Ne.symm h7)
    have e8 : ("neutral" == e) = false := beq_eq_false_iff_ne.mpr (Ne.symm h8)
    have e9 : ("no_face_detected" == e) = false := beq_eq_false_iff_ne.mpr (Ne.symm h9)
    simp [emotionBase, EMOTION_TO_SCORE, List.find?, e1, e2, e3, e4, e5, e6, e7, e8, e9]

/-- C5 (witness): the live branch at a happy face with confidence `0.8`,
and the unknown-label default at the label `"joy"`. -/
theorem C5_face_component_witness :
    ((fuse ⟨some 0.5, some 0⟩ (some ⟨some "happy", some 0.8⟩) (0.6, 0.4)).components.face_comp =
        emotionBase "happy" * 0.8 + 0.5 * (1 - 0.8) ∧
      (face_comp_conf (some ⟨some "happy", some 0.8⟩)).2 = 0.8) ∧
    emotionBase "joy" = 0.5 :=
  ⟨(C5_face_component ⟨some 0.5, some 0⟩ (0.6, 0.4) "happy" 0.8).2.2.1 (by decide),
   (C5_face_component ⟨some 0.5, some 0⟩ (0.6, 0.4) "joy" 0).2.2.2.2 (by decide)⟩

/-- C7: `fuse` reproduces the spec's three worked examples exactly:
(A) mood `0.748`, high; (B) mood `0.41`, medium; (C) mood `0.14`, low. -/
theorem C7_worked_examples :
    (fuse ⟨some 0.8, some 0.3⟩ (some ⟨some "happy", some 0.8⟩) (0.6, 0.4)).mood_score = 0.748 ∧
    (fuse ⟨some 0.8, some 0.3⟩ (some ⟨some "happy", some 0.8⟩) (0.6, 0.4)).category = "high" ∧
    (fuse ⟨some 0.5, some 0⟩ none (0.6, 0.4)).mood_score = 0.41 ∧
    (fuse ⟨some 0.5, some 0⟩ none (0.6, 0.4)).category = "medium" ∧
    (fuse ⟨some 0.1, some 0⟩ (some ⟨some "sad", some 0.9⟩) (0.6, 0.4)).mood_score = 0.14 ∧
    (fuse ⟨some 0.1, some 0⟩ (some ⟨some "sad", some 0.9⟩) (0.6, 0.4)).category = "low" := by
  refine ⟨?_, ?_, ?_, ?_, ?_, ?_⟩ <;>
    · simp [fuse, face_comp_conf, effective_weights, map_face_emotion_score, emotionBase,
        EMOTION_TO_SCORE, FaceDict.truthy, categorize, List.find?]
      norm_num

/-- C8: `fuse` is deterministic — two calls with equal text signal, face
signal, and weights agree on the mood score, the category and every
component. -/
theorem C8_deterministic (t₁ t₂ : TextDict) (f₁ f₂ : Option FaceDict)
    (w₁ w₂ : ℚ × ℚ) (ht : t₁ = t₂) (hf : f₁ = f₂) (hw : w₁ = w₂) :
    (fuse t₁ f₁ w₁).mood_score = (fuse t₂ f₂ w₂).mood_score ∧
    (fuse t₁ f₁ w₁).category = (fuse t₂ f₂ w₂).category ∧
    (fuse t₁ f₁ w₁).components = (fuse t₂ f₂ w₂).components := by
  subst ht; subst hf; subst hw
  exact ⟨rfl, rfl, rfl⟩

/-- C8 (witness): the determinism theorem applied at scenario-A inputs. -/
theorem C8_deterministic_witness :
    (fuse ⟨some 0.8, some 0.3⟩ (some ⟨some "happy", some 0.8⟩) (0.6, 0.4)).mood_score =
      (fuse ⟨some 0.8, some 0.3⟩ (some ⟨some "happy", some 0.8⟩) (0.6, 0.4)).mood_score ∧
    (fuse ⟨some 0.8, some 0.3⟩ (some ⟨some "happy", some 0.8⟩) (0.6, 0.4)).category =
      (fuse ⟨some 0.8, some 0.3⟩ (some ⟨some "happy", some 0.8⟩) (0.6, 0.4)).category ∧
    (fuse ⟨some 0.8, some 0.3⟩ (some ⟨some "happy", some 0.8⟩) (0.6, 0.4)).components =
      (fuse ⟨some 0.8, some 0.3⟩ (some ⟨some "happy", some 0.8⟩) (0.6, 0.4)).components :=
  C8_deterministic ⟨some 0.8, some 0.3⟩ ⟨some 0.8, some 0.3⟩
    (some ⟨some "happy", some 0.8⟩) (some ⟨some "happy", some 0.8⟩)
    (0.6, 0.4) (0.6, 0.4) rfl rfl rfl

/-- C10: `fuse` is total on partial dict inputs: a missing `valence` key is
read as `0.5`, a missing `motivation_score` key as `0`, and a present
(truthy, non-sentinel) face dict missing its `score` key gives confidence
`0`, so the weights are forced to `(0.9, 0.1)`; the result is still a
well-formed `FusionResult` whose category is one of the three labels. -/
theorem C10_missing_keys_defaults (t : TextDict) (f : Option FaceDict)
    (w : ℚ × ℚ) (d : FaceDict) :
    (t.valence = none → (fuse t f w).components.text_valence = 0.5) ∧
    (t.motivation_score = none → (fuse t f w).components.motivation_score = 0) ∧
    (d.score = none → d.truthy = true → d.dominant_emotion ≠ some "no_face_detected" →
      (face_comp_conf (some d)).2 = 0 ∧
      (fuse t (some d) w).mood_score =
        0.9 * (fuse t (some d) w).components.text_comp +
        0.1 * (fuse t (some d) w).components.face_comp) ∧
    ((fuse t f w).category = "low" ∨ (fuse t f w).category = "medium" ∨
      (fuse t f w).category = "high") := by
  refine ⟨fun h => by simp [fuse, h], fun h => by simp [fuse, h], ?_, categorize_cases _⟩
  intro hs htr hne
  have hconf : (face_comp_conf (some d)).2 = 0 := by
    simp [face_comp_conf, htr, beq_iff_eq, hne, hs]
  refine ⟨hconf, ?_⟩
  simp [fuse, effective_weights, hconf]
  norm_num

/-- C10 (witness): the theorem applied to an empty text dict and the face
dict `{dominant_emotion: "happy"}` with no `score` key. -/
theorem C10_missing_keys_defaults_witness :
    ((fuse ⟨none, none⟩ none (0.6, 0.4)).components.text_valence = 0.5) ∧
    ((fuse ⟨none, none⟩ none (0.6, 0.4)).components.motivation_score = 0) ∧
    ((face_comp_conf (some ⟨some "happy", none⟩)).2 = 0 ∧
      (fuse ⟨none, none⟩ (some ⟨some "happy", none⟩) (0.6, 0.4)).mood_score =
        0.9 * (fuse ⟨none, none⟩ (some ⟨some "happy", none⟩) (0.6, 0.4)).components.text_comp +
        0.1 * (fuse ⟨none, none⟩ (some ⟨some "happy", none⟩) (0.6, 0.4)).components.face_comp) :=
  ⟨(C10_missing_keys_defaults ⟨none, none⟩ none (0.6, 0.4) ⟨some "happy", none⟩).1 rfl,
   (C10_missing_keys_defaults ⟨none, none⟩ none (0.6, 0.4) ⟨some "happy", none⟩).2.1 rfl,
   (C10_missing_keys_defaults ⟨none, none⟩ none (0.6, 0.4) ⟨some "happy", none⟩).2.2.1
      rfl (by decide) (by decide)⟩

/-- C6: for every text and classifier result `{label, confidence}` with
confidence in `[0,1]`, `analyze_text` returns valence `confidence` when the
label is POSITIVE and `1 − confidence` otherwise, and motivation score
`min 1 (0.2 × |matched keywords| + (0.3 if POSITIVE else 0))`; both lie in
`[0,1]`. -/
theorem C6_text_features (text label : String) (score : ℚ)
    (h0 : 0 ≤ score) (h1 : score ≤ 1) :
    (analyze_text text label score).valence =
      (if label = "POSITIVE" then score else 1 - score) ∧
    (analyze_text text label score).motivation_score =
      min 1 (0.2 * ((analyze_text text label score).keywords.length : ℚ) +
        (if label = "POSITIVE" then 0.3 else 0)) ∧
    0 ≤ (analyze_text text label score).valence ∧
    (analyze_text text label score).valence ≤ 1 ∧
    0 ≤ (analyze_text text label score).motivation_score ∧
    (analyze_text text label score).motivation_score ≤ 1 := by
  have hv : (analyze_text text label score).valence =
      if label = "POSITIVE" then score else 1 - score := by
    simp [analyze_text, beq_iff_eq]
  have hmot : (analyze_text text label score).motivation_score =
      min 1 (0.2 * ((analyze_text text label score).keywords.length : ℚ) +
        (if label = "POSITIVE" then 0.3 else 0)) := by
    simp [analyze_text, beq_iff_eq]
  have hx : (0 : ℚ) ≤ 0.2 * ((analyze_text text label score).keywords.length : ℚ) +
      (if label = "POSITIVE" then 0.3 else 0) := by
    have hn : (0 : ℚ) ≤ ((analyze_text text label score).keywords.length : ℚ) :=
      Nat.cast_nonneg _
    split_ifs <;> nlinarith
  refine ⟨hv, hmot, ?_, ?_, ?_, ?_⟩
  · rw [hv]; split_ifs <;> linarith
  · rw [hv]; split_ifs <;> linarith
  · rw [hmot]; exact le_min (by norm_num) hx
  · rw [hmot]; exact min_le_left _ _

/-- C6 (witness): the theorem applied to the text `"exercise"` classified
POSITIVE with confidence `0.99`. -/
theorem C6_text_features_witness :
    (analyze_text "exercise" "POSITIVE" 0.99).valence =
      (if "POSITIVE" = "POSITIVE" then (0.99 : ℚ) else 1 - 0.99) ∧
    (analyze_text "exercise" "POSITIVE" 0.99).motivation_score =
      min 1 (0.2 * ((analyze_text "exercise" "POSITIVE" 0.99).keywords.length : ℚ) +
        (if "POSITIVE" = "POSITIVE" then 0.3 else 0)) ∧
    0 ≤ (analyze_text "exercise" "POSITIVE" 0.99).valence ∧
    (analyze_text "exercise" "POSITIVE" 0.99).valence ≤ 1 ∧
    0 ≤ (analyze_text "exercise" "POSITIVE" 0.99).motivation_score ∧
    (analyze_text "exercise" "POSITIVE" 0.99).motivation_score ≤ 1 :=
  C6_text_features "exercise" "POSITIVE" 0.99 (by norm_num) (by norm_num)

/-- C9: `save_entry` is total and, modelling the `try/except` around the
session, a commit failure rolls back and leaves the stored log unchanged,
while a successful commit appends exactly the constructed row. -/
theorem C9_save_entry_never_raises (db : List Entry) (now : Nat)
    (commit_fails : Bool) (text : String) (fb : List (String × String))
    (fr : FusionResult) (tr : TextResult) (fa : Option FaceDict) :
    (commit_fails = true → save_entry db now commit_fails text fb fr tr fa = db) ∧
    (commit_fails = false → save_entry db now commit_fails text fb fr tr fa =
      db ++ [{ timestamp := now, text := text, text_emotion := tr, face_emotion := fa,
               mood_score := fr.mood_score,
               feedback := dict_get fb "message" "" }]) := by
  constructor <;> intro h <;> subst h <;> simp [save_entry]

/-- C9 (witness): the theorem applied to a failing and a succeeding commit
on the empty store. -/
theorem C9_save_entry_never_raises_witness :
    save_entry [] 5 true "hello" [] ⟨0.41, "medium", ⟨0.4, 0.5, 0.5, 0⟩⟩
      ⟨"POSITIVE", 0.9, 0.9, 0.3, []⟩ none = [] ∧
    save_entry [] 5 false "hello" [] ⟨0.41, "medium", ⟨0.4, 0.5, 0.5, 0⟩⟩
      ⟨"POSITIVE", 0.9, 0.9, 0.3, []⟩ none =
      [{ timestamp := 5, text := "hello",
         text_emotion := ⟨"POSITIVE", 0.9, 0.9, 0.3, []⟩, face_emotion := none,
         mood_score := (0.41 : ℚ), feedback := "" }] :=
  ⟨(C9_save_entry_never_raises [] 5 true "hello" [] ⟨0.41, "medium", ⟨0.4, 0.5, 0.5, 0⟩⟩
      ⟨"POSITIVE", 0.9, 0.9, 0.3, []⟩ none).1 rfl,
   (C9_save_entry_never_raises [] 5 false "hello" [] ⟨0.41, "medium", ⟨0.4, 0.5, 0.5, 0⟩⟩
      ⟨"POSITIVE", 0.9, 0.9, 0.3, []⟩ none).2 rfl⟩

/-- C2 (code_bug evaluation): one full submission — scenario-B fusion
result, feedback generated from it, saved and listed back.  The record
round-trips, but its stored `feedback` field is `""`: `save_entry` reads
`feedback_obj.get("message", "")` while `generate_feedback` returns the
message under the key `"feedback"`, which is non-empty. -/
theorem C2_stored_feedback_empty :
    (load_entries (save_entry [] 1 false "Feeling okay today"
        (generate_feedback (fuse ⟨some 0.5, some 0⟩ none (0.6, 0.4))
          ⟨"NEGATIVE", 0.5, 0.5, 0, []⟩ none none 1 0 false)
        (fuse ⟨some 0.5, some 0⟩ none (0.6, 0.4))
        ⟨"NEGATIVE", 0.5, 0.5, 0, []⟩ none)).map Entry.feedback = [""] ∧
    dict_get (generate_feedback (fuse ⟨some 0.5, some 0⟩ none (0.6, 0.4))
        ⟨"NEGATIVE", 0.5, 0.5, 0, []⟩ none none 1 0 false) "feedback" "" =
      "Nice awareness — try a 10-minute walk today to stay consistent." ∧
    dict_get (generate_feedback (fuse ⟨some 0.5, some 0⟩ none (0.6, 0.4))
        ⟨"NEGATIVE", 0.5, 0.5, 0, []⟩ none none 1 0 false) "message" "" = "" ∧
    ("Nice awareness — try a 10-minute walk today to stay consistent." : String) ≠ "" := by
  have hcat : (fuse ⟨some 0.5, some 0⟩ none (0.6, 0.4)).category = "medium" := by
    simp [fuse, face_comp_conf, effective_weights, categorize]
    norm_num
  refine ⟨?_, ?_, ?_, by decide⟩
  · simp [load_entries, save_entry, dict_get, generate_feedback, List.find?,
      List.insertionSort]
  · simp [generate_feedback, dict_get, hcat, TEMPLATES, MICRO_ACTIONS, List.find?]
  · simp [generate_feedback, dict_get, List.find?]

end HabitCoach
